import Mathlib

/-
Shallow embedding of the ingestion-classification-cache pipeline of the
blood_pressure_dashboard repository.

Sources embedded:
  - src/config.py            : PROGI_ESC thresholds, DATA_CACHE_TTL_MINUTES
  - src/data_processing.py   : klasyfikuj_cisnienie_esc_wektorowo (lines 19-80,
    the live branch; the code after the `return df` at line 80 is unreachable)
    and wczytaj_i_przetworz_dane (lines 170-269).

Blood-pressure values are modelled as rationals (the Python code works on
pandas float columns; every comparison and arithmetic operation used by the
pipeline is exact on the values the claims touch). Timestamps are modelled as
integers (a totally ordered parse result; pandas NaT is `none`).
-/

namespace BloodPressure

/-- One (sys, dia) threshold pair from config.py PROGI_ESC. -/
structure Progi where
  sys : ℚ
  dia : ℚ

/-- config.py: PROGI_ESC entry optymalne = sys 120, dia 70. -/
def optymalne : Progi := ⟨120, 70⟩

/-- config.py: PROGI_ESC entry prawidlowe = sys 120, dia 70. -/
def prawidlowe : Progi := ⟨120, 70⟩

/-- config.py: PROGI_ESC entry podwyzszone = sys 130, dia 80. -/
def podwyzszone : Progi := ⟨130, 80⟩

/-- config.py: PROGI_ESC entry nadcisnienie_1 = sys 140, dia 90. -/
def nadcisnienie_1 : Progi := ⟨140, 90⟩

/-- config.py: PROGI_ESC entry nadcisnienie_2 = sys 160, dia 100. -/
def nadcisnienie_2 : Progi := ⟨160, 100⟩

/-- config.py: PROGI_ESC entry nadcisnienie_3 = sys 180, dia 110. -/
def nadcisnienie_3 : Progi := ⟨180, 110⟩

/-- config.py line 28: DATA_CACHE_TTL_MINUTES = 5. This constant is defined in
the configuration module but is not read anywhere in src. -/
def DATA_CACHE_TTL_MINUTES : ℤ := 5

/-- src/data_processing.py lines 41-71 (klasyfikuj_cisnienie_esc_wektorowo,
live branch): np.select over the ordered condition list, first match wins,
default "Optymalne". Condition 1 uses nadcisnienie_1.dia (= 90) for the DIA
bound of the isolated-systolic case. -/
def klasyfikujCisnienie (sys dia : ℚ) : String :=
  if sys ≥ nadcisnienie_1.sys ∧ dia < nadcisnienie_1.dia then
    "Izolowane nadciśnienie skurczowe"
  else if sys ≥ nadcisnienie_3.sys ∨ dia ≥ nadcisnienie_3.dia then
    "Nadciśnienie 3°"
  else if sys ≥ nadcisnienie_2.sys ∨ dia ≥ nadcisnienie_2.dia then
    "Nadciśnienie 2°"
  else if sys ≥ nadcisnienie_1.sys ∨ dia ≥ nadcisnienie_1.dia then
    "Nadciśnienie 1°"
  else if sys ≥ podwyzszone.sys ∨ dia ≥ podwyzszone.dia then
    "Podwyższone"
  else if sys ≥ optymalne.sys ∨ dia ≥ optymalne.dia then
    "Prawidłowe"
  else
    "Optymalne"

/-- The seven category names of the classifier, in priority order followed by
the default (config.py KOLEJNOSC_ESC lists the same seven). -/
def kategorieESC : List String :=
  ["Izolowane nadciśnienie skurczowe", "Nadciśnienie 3°", "Nadciśnienie 2°",
   "Nadciśnienie 1°", "Podwyższone", "Prawidłowe", "Optymalne"]

/-- numpy round-half-to-even on a rational, to an integer. `round(x, 1)` on a
pandas Series resolves to numpy rounding, which rounds ties to the even
integer. (Rat.floor is the true floor: Rat.le_floor in Mathlib.) -/
def roundHalfEven (q : ℚ) : ℤ :=
  if q - q.floor < 1 / 2 then q.floor
  else if 1 / 2 < q - q.floor then q.floor + 1
  else if q.floor % 2 = 0 then q.floor else q.floor + 1

/-- `round(x, 1)`: numpy half-even rounding to one decimal place. -/
def roundTo1 (q : ℚ) : ℚ := (roundHalfEven (q * 10) : ℚ) / 10

/-- One raw row of the tabular source, after per-cell parsing: `Datetime` is
the parse result of the combined Data + Godzina text (none = NaT, i.e. the
parse failed under errors="coerce"); SYS, DIA, PUL are the numeric cells
(none = NaN / missing). -/
structure RawRow where
  Datetime : Option ℤ
  SYS : Option ℚ
  DIA : Option ℚ
  PUL : Option ℚ
deriving DecidableEq

/-- A raw table as produced by pd.read_excel or pd.read_feather: which of the
columns the pipeline touches are present, plus the rows. -/
structure RawTable where
  hasData : Bool
  hasGodzina : Bool
  hasDatetime : Bool
  hasSYS : Bool
  hasDIA : Bool
  hasPUL : Bool
  rows : List RawRow
deriving DecidableEq

/-- A Python exception raised inside the processing block. `keyError cols` is
the pandas KeyError raised by `df.dropna(subset=...)` when some subset columns
are absent; pandas reports exactly the missing ones, in subset order. -/
inductive PyError where
  | keyError (cols : List String)
deriving DecidableEq

instance {ε α : Type} [DecidableEq ε] [DecidableEq α] : DecidableEq (Except ε α)
  | Except.error a, Except.error b => decidable_of_iff (a = b) (by simp)
  | Except.error _, Except.ok _ => isFalse (by simp)
  | Except.ok _, Except.error _ => isFalse (by simp)
  | Except.ok a, Except.ok b => decidable_of_iff (a = b) (by simp)

/-- One fully processed row: the columns of the returned DataFrame that the
pipeline derives (src/data_processing.py lines 220-240). The Hour / Dzień /
Godzina Pomiaru / Typ Dnia presentation columns are functions of Datetime
alone and are not consumed by any property below. -/
structure ProcessedRow where
  Datetime : ℤ
  SYS : ℚ
  DIA : ℚ
  PUL : ℚ
  MAP : ℚ
  PP : ℚ
  Kategoria : String
deriving DecidableEq

/-- The columns of ['SYS', 'DIA', 'PUL'] missing from the table, in subset
order: the argument of the KeyError that
`df.dropna(subset=['SYS', 'DIA', 'PUL'])` raises when this list is nonempty. -/
def brakujaceKolumny (tbl : RawTable) : List String :=
  (if tbl.hasSYS then [] else ["SYS"]) ++
  (if tbl.hasDIA then [] else ["DIA"]) ++
  (if tbl.hasPUL then [] else ["PUL"])

/-- Whether a Datetime column is available for the dropna at line 220: either
it was just built from Data + Godzina (line 212) or it already existed, e.g.
read back from the cache (line 217). -/
def maDatetime (tbl : RawTable) : Bool :=
  (tbl.hasData && tbl.hasGodzina) || tbl.hasDatetime

/-- src/data_processing.py lines 227-240: the per-row derivations applied to a
row that survived both drops (its cells are all present; getD 0 is only the
Option eliminator): MAP = round((SYS + 2 DIA) / 3, 1), PP = SYS - DIA, and the
Kategoria column written by klasyfikuj_cisnienie_esc_wektorowo. -/
def przetworzWiersz (r : RawRow) : ProcessedRow :=
  let s := r.SYS.getD 0
  let d := r.DIA.getD 0
  { Datetime := r.Datetime.getD 0, SYS := s, DIA := d, PUL := r.PUL.getD 0,
    MAP := roundTo1 ((s + 2 * d) / 3), PP := s - d,
    Kategoria := klasyfikujCisnienie s d }

/-- Line 220: the rows surviving df.dropna(subset=['Datetime']) (valid when a
Datetime column is available). -/
def zDatami (tbl : RawTable) : List RawRow :=
  tbl.rows.filter (fun r => r.Datetime.isSome)

/-- Line 221: df.sort_values('Datetime') on the rows that survived the
Datetime dropna (modelled as a sort by the Datetime key; no property below
depends on the relative order of equal keys). -/
def posortowane (tbl : RawTable) : List RawRow :=
  (zDatami tbl).insertionSort (fun a b => a.Datetime.getD 0 ≤ b.Datetime.getD 0)

/-- Line 224: the rows surviving df.dropna(subset=['SYS', 'DIA', 'PUL']). -/
def kompletne (tbl : RawTable) : List RawRow :=
  (posortowane tbl).filter (fun r => r.SYS.isSome && r.DIA.isSome && r.PUL.isSome)

/-- src/data_processing.py lines 209-240: the processing block shared by the
cache path and the Excel path. Builds/coerces Datetime, drops NaT rows (the
dropna raises a KeyError when no Datetime column is available), sorts by
Datetime, counts liczba_przed, drops rows with missing SYS / DIA / PUL (the
dropna raises the KeyError naming the absent subset columns), counts
liczba_po, then derives the per-row columns. Returns the processed rows
together with (liczba_przed, liczba_po). -/
def przetworz (tbl : RawTable) : Except PyError (List ProcessedRow × ℕ × ℕ) :=
  if maDatetime tbl = false then Except.error (PyError.keyError ["Datetime"])
  else if brakujaceKolumny tbl ≠ [] then
    Except.error (PyError.keyError (brakujaceKolumny tbl))
  else
    Except.ok ((kompletne tbl).map przetworzWiersz,
      (posortowane tbl).length, (kompletne tbl).length)

/-- The filesystem and I/O environment one call of wczytaj_i_przetworz_dane
observes: existence and modification times of the Excel file and of the
feather cache file, the outcome of reading each (an error message when the
read raises), and whether the feather write would succeed. -/
structure Env where
  excelExists : Bool
  excelMtime : ℤ
  featherExists : Bool
  featherMtime : ℤ
  excelRead : Except String RawTable
  featherRead : Except String RawTable
  featherWriteOk : Bool

/-- src/data_processing.py lines 185-197: cache_jest_aktualny starts False and
becomes True when the feather file exists and its mtime is >= the Excel
mtime. -/
def cacheJestAktualny (env : Env) : Bool :=
  if env.featherExists then
    if env.excelMtime ≤ env.featherMtime then true else false
  else false

/-- config.py / app.py: the Excel file name (app.py and the tests use
Pomiary_SYS_DIA.xlsx; the name only appears inside the not-found message). -/
def NAZWA_PLIKU_EXCEL : String := "Pomiary_SYS_DIA.xlsx"

/-- src/data_processing.py line 267: the FileNotFoundError status string. -/
def komunikatBrakPliku : String :=
  "❌ Błąd: Nie znaleziono pliku " ++ NAZWA_PLIKU_EXCEL ++ " w folderze projektu."

/-- src/data_processing.py line 269: the generic status string wrapping any
other exception text. -/
def komunikatBladOgolny (e : String) : String :=
  "❌ Błąd podczas wczytywania lub przetwarzania danych: " ++ e

/-- The text of a modelled Python exception as interpolated into the generic
status string: for the dropna KeyError, the list of missing column names
(pandas puts exactly these names in the exception). -/
def opisPyError : PyError → String
  | PyError.keyError cols => toString cols

/-- The feather cache file after one call: either unchanged from before the
call, or overwritten with the fully processed dataset. -/
inductive StanCache where
  | bezZmian
  | nadpisany (df : List ProcessedRow)
deriving DecidableEq

/-- What one call of wczytaj_i_przetworz_dane returns to its caller (the
DataFrame and the status string, lines 264 / 267 / 269) together with the
state of the cache file when the call ends. -/
structure Wynik where
  df : List ProcessedRow
  komunikat : String
  cache : StanCache
deriving DecidableEq

/-- src/data_processing.py lines 170-269: wczytaj_i_przetworz_dane. Raises
FileNotFoundError when the Excel file is absent; decides the read source by
cache_jest_aktualny; any exception from the read or the processing block is
caught by the except arms (lines 266-269), which return an empty DataFrame and
a status string, leaving the cache file as it was. On success, when the cache
was not current, the processed dataset is written to the feather file inside
its own try/except (lines 244-258): a write failure is only printed. The
success status (lines 260-262) reports the row count, the source, and the
number of dropped incomplete rows when positive. -/
def wczytajIPrzetworzDane (env : Env) : Wynik :=
  if env.excelExists = false then
    { df := [], komunikat := komunikatBrakPliku, cache := StanCache.bezZmian }
  else
    let aktualny := cacheJestAktualny env
    let odczyt := if aktualny then env.featherRead else env.excelRead
    let zrodloDanych := if aktualny then "cache" else "Excel"
    match odczyt with
    | Except.error e =>
      { df := [], komunikat := komunikatBladOgolny e, cache := StanCache.bezZmian }
    | Except.ok tbl =>
      match przetworz tbl with
      | Except.error pe =>
        { df := [], komunikat := komunikatBladOgolny (opisPyError pe),
          cache := StanCache.bezZmian }
      | Except.ok (df, liczbaPrzed, liczbaPo) =>
        let stan :=
          if aktualny = false && env.featherWriteOk then StanCache.nadpisany df
          else StanCache.bezZmian
        let komunikat :=
          "✅ Pomyślnie wczytano " ++ toString df.length ++
            " pomiarów z pliku " ++ zrodloDanych ++ ". " ++
            (if liczbaPo < liczbaPrzed then
              "Usunięto " ++ toString (liczbaPrzed - liczbaPo) ++
                " niekompletnych wierszy."
            else "")
        { df := df, komunikat := komunikat, cache := stan }

/-- Modelled from the spec: the freshness predicate of section 4.4,
is_fresh(record, now, ttl) = (now - record.fetched_at) <= ttl. The src loader
has no such predicate (its freshness test is the mtime comparison above); this
definition follows the spec words and exists to be compared against the
code. -/
def isFreshSpec (fetchedAt now ttl : ℤ) : Prop := now - fetchedAt ≤ ttl

instance (fetchedAt now ttl : ℤ) : Decidable (isFreshSpec fetchedAt now ttl) :=
  inferInstanceAs (Decidable (now - fetchedAt ≤ ttl))

/-- A well-formed one-row Excel table: Data and Godzina present, all numeric
columns present and populated. -/
def dobraTabela : RawTable :=
  { hasData := true, hasGodzina := true, hasDatetime := false,
    hasSYS := true, hasDIA := true, hasPUL := true,
    rows := [{ Datetime := some 0, SYS := some 120, DIA := some 80, PUL := some 60 }] }

/-- An Excel table whose Godzina and PUL columns are absent (Data, SYS, DIA
present, no prebuilt Datetime), with one fully populated row. -/
def tabelaBezGodzinyIPul : RawTable :=
  { hasData := true, hasGodzina := false, hasDatetime := false,
    hasSYS := true, hasDIA := true, hasPUL := false,
    rows := [{ Datetime := some 0, SYS := some 120, DIA := some 80, PUL := none }] }

/-- An Excel table with Data and Godzina present but the PUL column absent. -/
def tabelaBezPul : RawTable :=
  { hasData := true, hasGodzina := true, hasDatetime := false,
    hasSYS := true, hasDIA := true, hasPUL := false,
    rows := [{ Datetime := some 0, SYS := some 120, DIA := some 80, PUL := none }] }

/-- A complete raw row with timestamp i. -/
def wierszKompletny (i : ℕ) : RawRow :=
  { Datetime := some (i : ℤ), SYS := some 120, DIA := some 80, PUL := some 60 }

/-- A raw row with timestamp i whose PUL cell is missing. -/
def wierszBezPul (i : ℕ) : RawRow :=
  { Datetime := some (i : ℤ), SYS := some 120, DIA := some 80, PUL := none }

/-- A 100-row Excel table: 90 complete rows followed by 10 rows with a missing
PUL value (the end-to-end example of spec section 8). -/
def tabela100 : RawTable :=
  { hasData := true, hasGodzina := true, hasDatetime := false,
    hasSYS := true, hasDIA := true, hasPUL := true,
    rows := (List.range 90).map wierszKompletny ++
      (List.range 10).map (fun i => wierszBezPul (90 + i)) }

/-- Environment for C3: the Excel file and the feather cache both have
mtime 0, so the cache was written at time 0 and the code path treats it as
current, whatever the current time is. -/
def envC3 : Env :=
  { excelExists := true, excelMtime := 0, featherExists := true, featherMtime := 0,
    excelRead := Except.ok dobraTabela, featherRead := Except.ok dobraTabela,
    featherWriteOk := true }

/-- Environment for C6: no cache, and the Excel read yields the table missing
Godzina and PUL. -/
def envC6 : Env :=
  { excelExists := true, excelMtime := 10, featherExists := false, featherMtime := 0,
    excelRead := Except.ok tabelaBezGodzinyIPul, featherRead := Except.error "brak",
    featherWriteOk := true }

/-- Environment for C7: the feather cache exists and is newer than the Excel
file, but reading it raises; the Excel read would succeed. -/
def envC7 : Env :=
  { excelExists := true, excelMtime := 0, featherExists := true, featherMtime := 5,
    excelRead := Except.ok dobraTabela, featherRead := Except.error "Feather corrupt",
    featherWriteOk := true }

/-- Environment for C9: no cache, successful Excel read of the one-row
table. -/
def envC9 : Env :=
  { excelExists := true, excelMtime := 3, featherExists := false, featherMtime := 0,
    excelRead := Except.ok dobraTabela, featherRead := Except.error "brak",
    featherWriteOk := true }

/-- The processed row the loader produces from the single row of dobraTabela
(numerically: MAP = round(280/3, 1) = 93.3, PP = 40, Kategoria
Podwyższone). -/
def wierszC9 : ProcessedRow :=
  przetworzWiersz { Datetime := some 0, SYS := some 120, DIA := some 80, PUL := some 60 }

/-- Environment for C8: no cache, successful Excel read of the 100-row
table. -/
def env100 : Env :=
  { excelExists := true, excelMtime := 7, featherExists := false, featherMtime := 0,
    excelRead := Except.ok tabela100, featherRead := Except.error "brak",
    featherWriteOk := true }

end BloodPressure

namespace BloodPressure

/-- C1: the classifier evaluates its rules in fixed priority order with the
isolated-systolic rule (sys ≥ 140 ∧ dia < 90, the Tier-1 thresholds) first and
absolute: every such pair is classified "Izolowane nadciśnienie skurczowe"
("isolated systolic elevation") even when sys ≥ 180, while a pair with
sys ≥ 140 and dia ≥ 90 falls through to the tier rules (Tier 3 / 2 / 1).
Concretely: classify 185 85 and classify 142 72 are isolated systolic
elevation, classify 154 95 is Tier 1 ("Nadciśnienie 1°") and classify 185 95
is Tier 3 ("Nadciśnienie 3°"). -/
theorem C1_ish_ma_priorytet :
    (∀ sys dia : ℚ, 140 ≤ sys → dia < 90 →
      klasyfikujCisnienie sys dia = "Izolowane nadciśnienie skurczowe") ∧
    (∀ sys dia : ℚ, 140 ≤ sys → 90 ≤ dia →
      klasyfikujCisnienie sys dia = "Nadciśnienie 3°" ∨
      klasyfikujCisnienie sys dia = "Nadciśnienie 2°" ∨
      klasyfikujCisnienie sys dia = "Nadciśnienie 1°") ∧
    klasyfikujCisnienie 185 85 = "Izolowane nadciśnienie skurczowe" ∧
    klasyfikujCisnienie 142 72 = "Izolowane nadciśnienie skurczowe" ∧
    klasyfikujCisnienie 154 95 = "Nadciśnienie 1°" ∧
    klasyfikujCisnienie 185 95 = "Nadciśnienie 3°" := by
  refine ⟨?_, ?_, by decide, by decide, by decide, by decide⟩
  · intro sys dia hs hd
    unfold klasyfikujCisnienie
    rw [if_pos ⟨hs, hd⟩]
  · intro sys dia hs hd
    unfold klasyfikujCisnienie
    rw [if_neg (by push_neg; intro _; exact hd)]
    by_cases h3 : sys ≥ nadcisnienie_3.sys ∨ dia ≥ nadcisnienie_3.dia
    · rw [if_pos h3]; exact Or.inl rfl
    · rw [if_neg h3]
      by_cases h2 : sys ≥ nadcisnienie_2.sys ∨ dia ≥ nadcisnienie_2.dia
      · rw [if_pos h2]; exact Or.inr (Or.inl rfl)
      · rw [if_neg h2,
          if_pos (show sys ≥ nadcisnienie_1.sys ∨ dia ≥ nadcisnienie_1.dia from Or.inl hs)]
        exact Or.inr (Or.inr rfl)

/-- Witness for C1 at a concrete input: 150/85 satisfies the hypotheses of the
isolated-systolic conjunct. -/
theorem C1_ish_ma_priorytet_witness :
    klasyfikujCisnienie 150 85 = "Izolowane nadciśnienie skurczowe" :=
  C1_ish_ma_priorytet.1 150 85 (by norm_num) (by norm_num)

/-- C2: the classifier is pure and total: for every (sys, dia) pair it returns
exactly one of the seven category names ("Optymalne" being the default when no
rule matches), the result is a function of (sys, dia) alone, and classifying
the same pair twice yields the same category. -/
theorem C2_klasyfikacja_totalna (sys dia : ℚ) :
    klasyfikujCisnienie sys dia ∈ kategorieESC ∧
    klasyfikujCisnienie sys dia = klasyfikujCisnienie sys dia := by
  refine ⟨?_, rfl⟩
  unfold klasyfikujCisnienie kategorieESC
  split_ifs <;> simp

end BloodPressure

namespace BloodPressure

/-- Helper: sorting permutes, so liczba_przed equals the number of rows with a
parseable timestamp. -/
theorem posortowane_length (tbl : RawTable) :
    (posortowane tbl).length = (zDatami tbl).length :=
  (List.perm_insertionSort _ _).length_eq

/-- Helper: liczba_po equals the number of parseable-timestamp rows that also
have all of SYS / DIA / PUL. -/
theorem kompletne_length (tbl : RawTable) :
    (kompletne tbl).length =
      ((zDatami tbl).filter
        (fun r => r.SYS.isSome && r.DIA.isSome && r.PUL.isSome)).length :=
  ((List.perm_insertionSort _ _).filter _).length_eq

/-- Helper: the success shape of przetworz: when a Datetime column is
available and no numeric column is missing, przetworz succeeds with the
processed complete rows and the two counts. -/
theorem przetworz_sukces (tbl : RawTable) (hdt : maDatetime tbl = true)
    (hcols : brakujaceKolumny tbl = []) :
    przetworz tbl = Except.ok ((kompletne tbl).map przetworzWiersz,
      (posortowane tbl).length, (kompletne tbl).length) := by
  unfold przetworz
  rw [if_neg (by simp [hdt]), if_neg (by simp [hcols])]

/-- Helper: every row of a successful przetworz result is przetworzWiersz of
some raw row. -/
theorem przetworz_element (tbl : RawTable) (df : List ProcessedRow) (p q : ℕ)
    (hok : przetworz tbl = Except.ok (df, p, q))
    (r : ProcessedRow) (hr : r ∈ df) :
    ∃ x : RawRow, przetworzWiersz x = r := by
  unfold przetworz at hok
  by_cases hdt : maDatetime tbl = false
  · rw [if_pos hdt] at hok
    exact absurd hok (by simp)
  · rw [if_neg hdt] at hok
    by_cases hcols : brakujaceKolumny tbl ≠ []
    · rw [if_pos hcols] at hok
      exact absurd hok (by simp)
    · rw [if_neg hcols] at hok
      simp only [Except.ok.injEq, Prod.mk.injEq] at hok
      obtain ⟨hdf, -⟩ := hok
      rw [← hdf] at hr
      obtain ⟨x, _, hx⟩ := List.mem_map.mp hr
      exact ⟨x, hx⟩

end BloodPressure

namespace BloodPressure

/-- C3 counterexample: cache freshness in the code is not TTL-based. In envC3
the cache file was written at time 0 (featherMtime = 0) and the Excel file has
the same mtime, so the code treats the cache as current; yet at current time
1000 (minutes) the spec predicate now - t0 <= ttl with
ttl = DATA_CACHE_TTL_MINUTES = 5 says the record is stale. The code path has
no notion of the current time at all, so the claimed equivalence fails at this
concrete input. -/
theorem C3_counterexample :
    cacheJestAktualny envC3 = true ∧
    ¬ isFreshSpec 0 1000 DATA_CACHE_TTL_MINUTES := by
  decide

/-- C3 (amended): cache freshness is mtime-based, not TTL-based: the loader
treats the cache as current exactly when the feather file exists and its
modification time is at least the Excel file modification time; the current
time and DATA_CACHE_TTL_MINUTES do not enter the decision (the predicate has
no time parameter). -/
theorem C3_swiezosc_wedlug_mtime (env : Env) :
    cacheJestAktualny env = true ↔
      env.featherExists = true ∧ env.excelMtime ≤ env.featherMtime := by
  unfold cacheJestAktualny
  split_ifs <;> simp_all

/-- C4 supporting theorem: the loader has no cache-bypass path. Whenever the
Excel file exists and the mtime comparison marks the cache current, the result
is computed from the feather read alone — changing the Excel read outcome
cannot change the result — and the cache file is never overwritten. The
force_refresh parameter the claim describes (and that
src/callbacks/callbacks.py line 113 passes) does not exist in the function
signature at src/data_processing.py line 170. -/
theorem C4_brak_sciezki_obejscia (env : Env)
    (hex : env.excelExists = true) (hfr : cacheJestAktualny env = true) :
    (∀ er : Except String RawTable,
      wczytajIPrzetworzDane { env with excelRead := er } =
        wczytajIPrzetworzDane env) ∧
    (wczytajIPrzetworzDane env).cache = StanCache.bezZmian := by
  obtain ⟨e1, e2, e3, e4, er0, fr, w⟩ := env
  replace hex : e1 = true := hex
  subst hex
  constructor
  · intro er
    have hca : cacheJestAktualny ⟨true, e2, e3, e4, er, fr, w⟩ = true := hfr
    cases fr with
    | error e => simp [wczytajIPrzetworzDane, hca, hfr]
    | ok tbl =>
      rcases hpt : przetworz tbl with pe | ⟨df, p, q⟩ <;>
        simp [wczytajIPrzetworzDane, hca, hfr, hpt]
  · cases fr with
    | error e => simp [wczytajIPrzetworzDane, hfr]
    | ok tbl =>
      rcases hpt : przetworz tbl with pe | ⟨df, p, q⟩ <;>
        simp [wczytajIPrzetworzDane, hfr, hpt]

/-- C4 witness: with a fresh, readable cache (envC3 has equal mtimes and an ok
feather read) the loader serves the cache and leaves the cache file alone,
independently of the Excel read outcome. -/
theorem C4_brak_sciezki_obejscia_witness :
    wczytajIPrzetworzDane { envC3 with excelRead := Except.error "sieć" } =
      wczytajIPrzetworzDane envC3 ∧
    (wczytajIPrzetworzDane envC3).cache = StanCache.bezZmian :=
  ⟨(C4_brak_sciezki_obejscia envC3 (by decide) (by decide)).1 (Except.error "sieć"),
   (C4_brak_sciezki_obejscia envC3 (by decide) (by decide)).2⟩

end BloodPressure

namespace BloodPressure

/-- C5: when the fetch fails at source level — the Excel file is absent
(FileNotFoundError), reading it raises (connection-style failure), or the
processing block raises (schema-style failure) — the loader returns an empty
dataset and a human-readable error status, and the cache file is left
unchanged. The loader is a total function of its environment, so no exception
propagates to the caller. -/
theorem C5_awaria_zrodla (env : Env) :
    (env.excelExists = false →
      wczytajIPrzetworzDane env =
        { df := [], komunikat := komunikatBrakPliku, cache := StanCache.bezZmian }) ∧
    (∀ e : String, env.excelExists = true → cacheJestAktualny env = false →
      env.excelRead = Except.error e →
      wczytajIPrzetworzDane env =
        { df := [], komunikat := komunikatBladOgolny e, cache := StanCache.bezZmian }) ∧
    (∀ (tbl : RawTable) (pe : PyError),
      env.excelExists = true → cacheJestAktualny env = false →
      env.excelRead = Except.ok tbl → przetworz tbl = Except.error pe →
      wczytajIPrzetworzDane env =
        { df := [], komunikat := komunikatBladOgolny (opisPyError pe),
          cache := StanCache.bezZmian }) := by
  obtain ⟨e1, e2, e3, e4, er, fr, w⟩ := env
  refine ⟨?_, ?_, ?_⟩
  · intro hex
    replace hex : e1 = false := hex
    subst hex
    rfl
  · intro e hex hfr hread
    replace hex : e1 = true := hex
    subst hex
    replace hread : er = Except.error e := hread
    subst hread
    simp [wczytajIPrzetworzDane, hfr]
  · intro tbl pe hex hfr hread hpt
    replace hex : e1 = true := hex
    subst hex
    replace hread : er = Except.ok tbl := hread
    subst hread
    simp [wczytajIPrzetworzDane, hfr, hpt]

/-- C5 witness: the concrete environment without the Excel file, through the
first conjunct. -/
theorem C5_awaria_zrodla_witness :
    wczytajIPrzetworzDane { envC3 with excelExists := false } =
      { df := [], komunikat := komunikatBrakPliku, cache := StanCache.bezZmian } :=
  (C5_awaria_zrodla { envC3 with excelExists := false }).1 (by decide)

/-- C6 counterexample: a fetched table whose Godzina (time) and PUL (pulse)
columns are both absent does not produce a "missing columns" error naming
them. The processing block fails only at the Datetime dropna: the status is
the generic processing-error string wrapping KeyError(['Datetime']), which
names neither Godzina nor PUL — so the claimed fail-fast check naming the
missing input columns does not exist in the code. -/
theorem C6_counterexample :
    przetworz tabelaBezGodzinyIPul = Except.error (PyError.keyError ["Datetime"]) ∧
    (wczytajIPrzetworzDane envC6).komunikat =
      komunikatBladOgolny (opisPyError (PyError.keyError ["Datetime"])) ∧
    ¬ ("Godzina" ∈ ["Datetime"]) ∧ ¬ ("PUL" ∈ ["Datetime"]) := by
  decide

/-- C6 (amended): there is no upfront required-columns check. When no Datetime
column can be built (Data or Godzina absent, and no prebuilt Datetime), the
load fails with KeyError(['Datetime']); when Datetime is available but some of
SYS / DIA / PUL are absent, the load fails with the KeyError naming exactly
the missing ones of those three — in both cases at the corresponding dropna
step inside processing, surfaced as the generic error status. -/
theorem C6_brakujace_kolumny (tbl : RawTable) :
    (maDatetime tbl = false →
      przetworz tbl = Except.error (PyError.keyError ["Datetime"])) ∧
    (maDatetime tbl = true → brakujaceKolumny tbl ≠ [] →
      przetworz tbl = Except.error (PyError.keyError (brakujaceKolumny tbl))) := by
  constructor
  · intro h
    unfold przetworz
    rw [if_pos h]
  · intro h1 h2
    unfold przetworz
    rw [if_neg (by simp [h1]), if_pos h2]

/-- C6 witness: a table with Data and Godzina present but PUL absent fails
with the KeyError naming exactly PUL, through the second conjunct. -/
theorem C6_brakujace_kolumny_witness :
    przetworz tabelaBezPul = Except.error (PyError.keyError ["PUL"]) :=
  ((C6_brakujace_kolumny tabelaBezPul).2 (by decide) (by decide)).trans (by decide)

/-- C7 counterexample: in envC7 the cache file exists, is newer than the Excel
file, and is corrupt (reading it raises), while the Excel read would succeed.
The loader returns an empty dataset and the generic error status — it does not
proceed to the Excel source. With the cache truly absent (featherExists set to
false) the same environment loads one row from Excel successfully, so a
corrupt cache is not treated like an absent one. -/
theorem C7_counterexample :
    (wczytajIPrzetworzDane envC7).df = [] ∧
    (wczytajIPrzetworzDane envC7).komunikat =
      komunikatBladOgolny "Feather corrupt" ∧
    (wczytajIPrzetworzDane { envC7 with featherExists := false }).df ≠ [] ∧
    (wczytajIPrzetworzDane { envC7 with featherExists := false }).komunikat =
      "✅ Pomyślnie wczytano 1 pomiarów z pliku Excel. " := by
  decide

/-- C7 (amended): when the cache file exists and the mtime comparison marks it
current but reading it raises, the loader returns an empty dataset with the
generic error status wrapping the read error and leaves the cache file
unchanged; the read error is caught (not re-raised) but there is no fallback
to the Excel source. -/
theorem C7_uszkodzony_cache (env : Env) (e : String)
    (hex : env.excelExists = true) (hfr : cacheJestAktualny env = true)
    (hread : env.featherRead = Except.error e) :
    wczytajIPrzetworzDane env =
      { df := [], komunikat := komunikatBladOgolny e, cache := StanCache.bezZmian } := by
  obtain ⟨e1, e2, e3, e4, er, fr, w⟩ := env
  replace hex : e1 = true := hex
  subst hex
  replace hread : fr = Except.error e := hread
  subst hread
  simp [wczytajIPrzetworzDane, hfr]

/-- C7 witness: the amended statement at the concrete corrupt-cache
environment. -/
theorem C7_uszkodzony_cache_witness :
    wczytajIPrzetworzDane envC7 =
      { df := [], komunikat := komunikatBladOgolny "Feather corrupt",
        cache := StanCache.bezZmian } :=
  C7_uszkodzony_cache envC7 "Feather corrupt" (by decide) (by decide) rfl

end BloodPressure

namespace BloodPressure

/-- C8: on a successful Excel load, rows with a missing SYS, DIA or PUL value
(among the rows that survived the timestamp-parse step) are dropped: the
returned dataset has exactly the complete rows, and when some rows were
dropped the success status reports the loaded count and the removed count. -/
theorem C8_liczenie_usunietych (env : Env) (tbl : RawTable)
    (hex : env.excelExists = true) (hfr : cacheJestAktualny env = false)
    (hread : env.excelRead = Except.ok tbl)
    (hdt : maDatetime tbl = true) (hcols : brakujaceKolumny tbl = []) :
    (wczytajIPrzetworzDane env).df.length =
      ((zDatami tbl).filter
        (fun r => r.SYS.isSome && r.DIA.isSome && r.PUL.isSome)).length ∧
    (((zDatami tbl).filter
        (fun r => r.SYS.isSome && r.DIA.isSome && r.PUL.isSome)).length <
          (zDatami tbl).length →
      (wczytajIPrzetworzDane env).komunikat =
        "✅ Pomyślnie wczytano " ++
          toString ((zDatami tbl).filter
            (fun r => r.SYS.isSome && r.DIA.isSome && r.PUL.isSome)).length ++
          " pomiarów z pliku " ++ "Excel" ++ ". " ++
          ("Usunięto " ++
            toString ((zDatami tbl).length -
              ((zDatami tbl).filter
                (fun r => r.SYS.isSome && r.DIA.isSome && r.PUL.isSome)).length) ++
            " niekompletnych wierszy.")) := by
  have h1 := posortowane_length tbl
  have h2 := kompletne_length tbl
  have hok := przetworz_sukces tbl hdt hcols
  obtain ⟨e1, e2, e3, e4, er, fr, w⟩ := env
  replace hex : e1 = true := hex
  subst hex
  replace hread : er = Except.ok tbl := hread
  subst hread
  constructor
  · simp [wczytajIPrzetworzDane, hfr, hok, h2]
  · intro hlt
    have hlt2 : (kompletne tbl).length < (posortowane tbl).length := by
      rw [h1, h2]; exact hlt
    simp [wczytajIPrzetworzDane, hfr, hok, hlt2, hlt, h1, h2]

/-- C8 witness: the 100-row table with 10 missing-pulse rows loads 90 readings
and the status reports 90 loaded and 10 removed. -/
theorem C8_liczenie_usunietych_witness :
    (wczytajIPrzetworzDane env100).df.length = 90 ∧
    (wczytajIPrzetworzDane env100).komunikat =
      "✅ Pomyślnie wczytano 90 pomiarów z pliku Excel. Usunięto 10 niekompletnych wierszy." := by
  have h := C8_liczenie_usunietych env100 tabela100
    (by decide) (by decide) rfl (by decide) (by decide)
  exact ⟨h.1.trans (by decide), (h.2 (by decide)).trans (by decide)⟩

/-- C9: every row of a returned dataset has MAP = round((SYS + 2 DIA) / 3, 1)
and PP = SYS - DIA; both derived columns are functions of the row's SYS and
DIA alone (the derivation is a pure function, so re-deriving from the same
inputs yields identical values). -/
theorem C9_pochodne_wskazniki (env : Env) (r : ProcessedRow)
    (h : r ∈ (wczytajIPrzetworzDane env).df) :
    r.MAP = roundTo1 ((r.SYS + 2 * r.DIA) / 3) ∧ r.PP = r.SYS - r.DIA := by
  obtain ⟨e1, e2, e3, e4, er, fr, w⟩ := env
  cases e1 with
  | false => simp [wczytajIPrzetworzDane] at h
  | true =>
    rcases hfr : cacheJestAktualny ⟨true, e2, e3, e4, er, fr, w⟩ with _ | _
    all_goals rcases hodczyt : (if cacheJestAktualny ⟨true, e2, e3, e4, er, fr, w⟩
        then fr else er) with e | tbl
    · simp [wczytajIPrzetworzDane, hodczyt] at h
    · rcases hpt : przetworz tbl with pe | ⟨df, p, q⟩
      · simp [wczytajIPrzetworzDane, hodczyt, hpt] at h
      · simp [wczytajIPrzetworzDane, hodczyt, hpt] at h
        obtain ⟨x, hx⟩ := przetworz_element tbl df p q hpt r h
        subst hx
        exact ⟨rfl, rfl⟩
    · simp [wczytajIPrzetworzDane, hodczyt] at h
    · rcases hpt : przetworz tbl with pe | ⟨df, p, q⟩
      · simp [wczytajIPrzetworzDane, hodczyt, hpt] at h
      · simp [wczytajIPrzetworzDane, hodczyt, hpt] at h
        obtain ⟨x, hx⟩ := przetworz_element tbl df p q hpt r h
        subst hx
        exact ⟨rfl, rfl⟩

/-- C9 witness: the row produced from the one-row table, with MAP = 93.3 and
PP = 40, is in the dataset loaded in envC9 and satisfies both equations. -/
theorem C9_pochodne_wskazniki_witness :
    wierszC9.MAP = roundTo1 ((wierszC9.SYS + 2 * wierszC9.DIA) / 3) ∧
    wierszC9.PP = wierszC9.SYS - wierszC9.DIA :=
  C9_pochodne_wskazniki envC9 wierszC9 (by
    have h : (wczytajIPrzetworzDane envC9).df = [wierszC9] := rfl
    rw [h]
    exact List.mem_singleton.mpr rfl)

/-- C10: the returned dataset and status string do not depend on whether the
cache write succeeds: the loader called in an environment where the feather
write would fail returns exactly the same df and komunikat as in the same
environment where it would succeed (the write failure is caught locally and
only the on-disk cache state differs). -/
theorem C10_wynik_niezalezny_od_zapisu (env : Env) :
    (wczytajIPrzetworzDane { env with featherWriteOk := false }).df =
      (wczytajIPrzetworzDane { env with featherWriteOk := true }).df ∧
    (wczytajIPrzetworzDane { env with featherWriteOk := false }).komunikat =
      (wczytajIPrzetworzDane { env with featherWriteOk := true }).komunikat := by
  obtain ⟨e1, e2, e3, e4, er, fr, w⟩ := env
  cases e1 with
  | false => exact ⟨rfl, rfl⟩
  | true =>
    have hca : ∀ b, cacheJestAktualny ⟨true, e2, e3, e4, er, fr, b⟩ =
        cacheJestAktualny ⟨true, e2, e3, e4, er, fr, w⟩ := fun _ => rfl
    cases hfr : cacheJestAktualny ⟨true, e2, e3, e4, er, fr, w⟩ with
    | false =>
      rcases er with e | tbl
      · simp [wczytajIPrzetworzDane, hca, hfr]
      · rcases hpt : przetworz tbl with pe | ⟨df, p, q⟩ <;>
          simp [wczytajIPrzetworzDane, hca, hfr, hpt]
    | true =>
      rcases fr with e | tbl
      · simp [wczytajIPrzetworzDane, hca, hfr]
      · rcases hpt : przetworz tbl with pe | ⟨df, p, q⟩ <;>
          simp [wczytajIPrzetworzDane, hca, hfr, hpt]

end BloodPressure
